import Mathlib

/-!
Verification of the Texecom Connect protocol client (alarm-monitor.py).

Bytes are modelled as natural numbers (Python 2 one-character strings are
their `ord` values); Python byte strings are `List Nat`.  Fallible Python
code paths (uncaught exceptions) are modelled with explicit crash
constructors in result types.  Each definition is a shallow embedding of
the correspondingly named function or code region of the source file.
-/

namespace Texecom

/-- Class constant LENGTH_HEADER = 4. -/
def LENGTH_HEADER : Nat := 4

/-- Class constant HEADER_START = the character t, ord 116. -/
def HEADER_START : Nat := 116

/-- Class constant HEADER_TYPE_COMMAND = the character C, ord 67. -/
def HEADER_TYPE_COMMAND : Nat := 67

/-- Class constant HEADER_TYPE_RESPONSE = the character R, ord 82. -/
def HEADER_TYPE_RESPONSE : Nat := 82

/-- Class constant HEADER_TYPE_MESSAGE = the character M, ord 77. -/
def HEADER_TYPE_MESSAGE : Nat := 77

/-- Class constant CMD_LOGIN = chr(1). -/
def CMD_LOGIN : Nat := 1

/-- Class constant CMD_GETZONEDETAILS = chr(3). -/
def CMD_GETZONEDETAILS : Nat := 3

/-- Class constant CMD_GETLCDDISPLAY = chr(13). -/
def CMD_GETLCDDISPLAY : Nat := 13

/-- Class constant CMD_GETPANELIDENTIFICATION = chr(22). -/
def CMD_GETPANELIDENTIFICATION : Nat := 22

/-- Class constant CMD_GETDATETIME = chr(23). -/
def CMD_GETDATETIME : Nat := 23

/-- Class constant CMD_SETEVENTMESSAGES = chr(37). -/
def CMD_SETEVENTMESSAGES : Nat := 37

/-- Class constant CMD_RESPONSE_ACK = the byte 0x06. -/
def CMD_RESPONSE_ACK : Nat := 6

/-- Class constant CMD_RESPONSE_NAK = the byte 0x15. -/
def CMD_RESPONSE_NAK : Nat := 21

/-- Class constant ZONETYPE_UNUSED = 0. -/
def ZONETYPE_UNUSED : Nat := 0

/-- Message discriminants MSG_DEBUG .. MSG_LOGEVENT = chr(0) .. chr(5). -/
def MSG_DEBUG : Nat := 0

/-- Message discriminant MSG_ZONEEVENT = chr(1). -/
def MSG_ZONEEVENT : Nat := 1

/-- Message discriminant MSG_AREAEVENT = chr(2). -/
def MSG_AREAEVENT : Nat := 2

/-- Message discriminant MSG_OUTPUTEVENT = chr(3). -/
def MSG_OUTPUTEVENT : Nat := 3

/-- Message discriminant MSG_USEREVENT = chr(4). -/
def MSG_USEREVENT : Nat := 4

/-- Message discriminant MSG_LOGEVENT = chr(5). -/
def MSG_LOGEVENT : Nat := 5

/-- One update step of the CRC-8 register for one input byte, as generated by
crcmod.mkCrcFun(poly=0x185, rev=False, initCrc=0xff): xor the byte into the
8-bit register, then shift left eight times MSB-first reducing by the 8 low
bits of the polynomial (0x85). -/
def crc8_step (crc b : Nat) : Nat :=
  let start := (crc ^^^ b) % 256
  (List.range 8).foldl
    (fun c _ => if 128 ≤ c then ((c * 2) ^^^ 0x85) % 256 else (c * 2) % 256)
    start

/-- The checksum function self.crc8_func built in the constructor:
CRC-8 with polynomial 0x185, non-reflected, initial value 0xFF, no final
xor, run over the whole byte string. -/
def crc8_func (data : List Nat) : Nat :=
  data.foldl crc8_step 0xff

/-- Wire frame built by sendcommandbody: HEADER_START, HEADER_TYPE_COMMAND,
chr(len(body)+5), sequence byte, body, then the CRC byte over everything
before it.  Python chr restricts len(body)+5 to at most 255 (so body length
at most 250); in this Nat model the length field is len(body)+5 unreduced. -/
def encode_frame (seq : Nat) (body : List Nat) : List Nat :=
  let data := HEADER_START :: HEADER_TYPE_COMMAND :: (body.length + 5) :: seq :: body
  data ++ [crc8_func data]

/-- A decoded logical frame: the four header bytes and the payload (the
checksum byte has been stripped after validation). -/
structure Frame where
  start : Nat
  kind : Nat
  length : Nat
  seq : Nat
  payload : List Nat
deriving Repr, DecidableEq

/-- Generic parse-and-validate portion of recvresponse (source lines 99 to
119): split off the four header bytes, read length-4 further bytes, split
the final byte off as the received CRC, reject a start marker other than
116 and reject a CRC mismatch.  Returns none exactly where that code region
returns None or cannot complete the parse. -/
def decode_rest (msg_start msg_type msg_length msg_sequence : Nat)
    (rest : List Nat) : Option Frame :=
  let body := rest.take (msg_length - LENGTH_HEADER)
  match body.getLast? with
  | none => none
  | some msg_crc =>
    let payload := body.dropLast
    let expected_crc :=
      crc8_func ([msg_start, msg_type, msg_length, msg_sequence] ++ payload)
    if msg_start ≠ HEADER_START then none
    else if msg_crc ≠ expected_crc then none
    else some ⟨msg_start, msg_type, msg_length, msg_sequence, payload⟩

/-- Dispatch of decode_rest over the four unpacked header bytes, modelling
the tuple unpacking of list(header) at source line 107. -/
def decode_frame (bytes : List Nat) : Option Frame :=
  match bytes with
  | msg_start :: msg_type :: msg_length :: msg_sequence :: rest =>
    decode_rest msg_start msg_type msg_length msg_sequence rest
  | _ => none

/-- Python-visible outcome of one iteration of the while loop in
recvresponse: ret v means the function returns the Python value v (none
models the None sentinel), deliver means an accepted Message payload is
passed to message_handler_func and the loop continues, loop means the
iteration falls through without returning (frame kind outside C, R, M),
and crash models an uncaught Python exception (header unpacking with a
header that is not four bytes, or indexing an empty payload read). -/
inductive Control where
  | ret (v : Option (List Nat))
  | deliver (payload : List Nat)
  | loop
  | crash
deriving Repr, DecidableEq

/-- Message-sequence acceptance check of recvresponse (source lines 126 to
134): last_received_seq is -1 until a first message arrives; with -1 any
sequence byte is accepted and recorded, otherwise only the successor of
the stored value (wrapping 256 to 0) is accepted.  Returns none when the
frame is dropped, and some of the newly stored value when accepted. -/
def check_message_seq (last_received_seq : Int) (msg_sequence : Nat) : Option Int :=
  if last_received_seq ≠ -1 then
    let next_msg_seq : Int :=
      if last_received_seq + 1 = 256 then 0 else last_received_seq + 1
    if (msg_sequence : Int) ≠ next_msg_seq then none
    else some (msg_sequence : Int)
  else some (msg_sequence : Int)

/-- Body of one recvresponse loop iteration after the header has been
unpacked into its four bytes (source lines 108 to 143).  payloadRead is
the byte string returned by the payload recv call; its final byte is the
received CRC.  Returns the control outcome together with the updated
last_received_seq. -/
def recvresponse_body (last_sequence : Nat) (last_received_seq : Int)
    (msg_start msg_type msg_length msg_sequence : Nat)
    (payloadRead : List Nat) : Control × Int :=
  match payloadRead.getLast? with
  | none => (Control.crash, last_received_seq)
  | some msg_crc =>
    let payload := payloadRead.dropLast
    let expected_crc :=
      crc8_func ([msg_start, msg_type, msg_length, msg_sequence] ++ payload)
    if msg_start ≠ HEADER_START then (Control.ret none, last_received_seq)
    else if msg_crc ≠ expected_crc then (Control.ret none, last_received_seq)
    else
      let seqCheck : Option Int :=
        if msg_type = HEADER_TYPE_RESPONSE then
          if msg_sequence ≠ last_sequence then none else some last_received_seq
        else if msg_type = HEADER_TYPE_MESSAGE then
          check_message_seq last_received_seq msg_sequence
        else some last_received_seq
      match seqCheck with
      | none => (Control.ret none, last_received_seq)
      | some lrs2 =>
        if msg_type = HEADER_TYPE_COMMAND then (Control.ret none, lrs2)
        else if msg_type = HEADER_TYPE_RESPONSE then (Control.ret (some payload), lrs2)
        else if msg_type = HEADER_TYPE_MESSAGE then (Control.deliver payload, lrs2)
        else (Control.loop, lrs2)

/-- One iteration of the recvresponse while loop (source lines 98 to 143):
the four-byte header read is compared against the literal +++ forced
disconnect marker first, then unpacked; a header that is not exactly four
bytes makes the unpacking raise. -/
def recvresponse_step (last_sequence : Nat) (last_received_seq : Int)
    (header : List Nat) (payloadRead : List Nat) : Control × Int :=
  if header = [43, 43, 43] then (Control.ret none, last_received_seq)
  else match header with
    | [msg_start, msg_type, msg_length, msg_sequence] =>
      recvresponse_body last_sequence last_received_seq
        msg_start msg_type msg_length msg_sequence payloadRead
    | _ => (Control.crash, last_received_seq)

/-- Outcome of one recvresponse call inside the retry loop of sendcommand:
either the socket read timed out (socket.timeout propagates out of
recvresponse) or recvresponse returned a Python value (None or a
payload). -/
inductive ReadOutcome where
  | timeout
  | value (v : Option (List Nat))
deriving Repr, DecidableEq

/-- Retry loop of sendcommand (source lines 195 to 207): up to retries
receive attempts; attempt i observes reads i.  A returned value breaks the
loop; a timeout logs and retransmits last_command verbatim, then tries
again.  Result: the final content of the local variable response (none
when the loop exhausted without ever assigning it, in which case the
subsequent response subscript raises UnboundLocalError) and the list of
retransmissions performed. -/
def sendcommand_retry (last_command : List Nat) (reads : Nat → ReadOutcome) :
    Nat → Nat → Option (Option (List Nat)) × List (List Nat)
  | _, 0 => (none, [])
  | i, retries + 1 =>
    match reads i with
    | ReadOutcome.value v => (some v, [])
    | ReadOutcome.timeout =>
      let rest := sendcommand_retry last_command reads (i + 1) retries
      (rest.1, last_command :: rest.2)

/-- Full transmission behaviour of one sendcommand call: the initial
transmission performed by sendcommandbody followed by the retransmissions
of the retry loop with retries = 3, paired with the final content of the
response variable. -/
def sendcommand_transmissions (frame : List Nat) (reads : Nat → ReadOutcome) :
    Option (Option (List Nat)) × List (List Nat) :=
  let r := sendcommand_retry frame reads 0 3
  (r.1, frame :: r.2)

/-- Result of the classification sendcommand performs on the response after
the retry loop (source lines 209 to 217).  sessionExpired is the branch
logging the log-on NAK diagnostic and opcodeMismatch the branch logging
the wrong command id diagnostic; both return None to the caller.  crash
covers the Python exceptions raised in that region: subscripting response
when it is None (TypeError) and subscripting an empty payload after a
mismatched Login opcode (IndexError). -/
inductive SendResult where
  | ok (payload : List Nat)
  | sessionExpired
  | opcodeMismatch
  | crash
deriving Repr, DecidableEq

/-- Classification of the recvresponse result by sendcommand (source lines
209 to 217): split the response into its leading opcode byte and the rest;
on an opcode mismatch, a Login opcode whose payload starts with NAK is the
session-expired case, any other mismatch with an evaluable payload is the
wrong-command-id case. -/
def sendcommand_classify (cmd : Nat) (response : Option (List Nat)) : SendResult :=
  match response with
  | none => SendResult.crash
  | some [] => SendResult.crash
  | some (commandid :: payload) =>
    if commandid ≠ cmd then
      if commandid = CMD_LOGIN then
        match payload with
        | [] => SendResult.crash
        | p0 :: _ =>
          if p0 = CMD_RESPONSE_NAK then SendResult.sessionExpired
          else SendResult.opcodeMismatch
      else SendResult.opcodeMismatch
    else SendResult.ok payload

/-- Python-visible result of login: retTrue and retFalseNak are the literal
returns, retFalseUnexpected is the branch logging an unexpected ack
payload and returning False, crash models the TypeError raised by ord when
the response is None, empty, or longer than one byte. -/
inductive LoginResult where
  | retTrue
  | retFalseNak
  | retFalseUnexpected
  | crash
deriving Repr, DecidableEq

/-- Post-processing of the sendcommand result by login (source lines 157 to
165): a response equal to the one-byte NAK string returns False; otherwise
any response different from the one-byte ACK string reaches the ord call,
which only evaluates for a one-byte response and then returns False; the
one-byte ACK response returns True. -/
def login_post (response : Option (List Nat)) : LoginResult :=
  match response with
  | some [b] =>
    if b = CMD_RESPONSE_NAK then LoginResult.retFalseNak
    else if b ≠ CMD_RESPONSE_ACK then LoginResult.retFalseUnexpected
    else LoginResult.retTrue
  | _ => LoginResult.crash

/-- Word-character test of the regular expression class backslash-W under
Python 2 byte-string defaults: decimal digits, ASCII letters and the
underscore are word characters, everything else is not. -/
def isWordByte (b : Nat) : Bool :=
  (48 ≤ b && b ≤ 57) || (65 ≤ b && b ≤ 90) || (97 ≤ b && b ≤ 122) || b == 95

/-- Whitespace test of the Python str.strip default: space, tab, newline,
vertical tab, form feed, carriage return. -/
def isPySpace (b : Nat) : Bool :=
  b == 32 || b == 9 || b == 10 || b == 11 || b == 12 || b == 13

/-- Helper of collapse_nonword: the boolean records whether the previous
byte belonged to a run of non-word bytes whose replacement space has
already been emitted. -/
def collapse_go : Bool → List Nat → List Nat
  | _, [] => []
  | inRun, b :: rest =>
    if isWordByte b then b :: collapse_go false rest
    else if inRun then collapse_go true rest
    else 32 :: collapse_go true rest

/-- Model of the re.sub call at source line 265: each maximal run of
non-word bytes is replaced by a single space byte. -/
def collapse_nonword (l : List Nat) : List Nat :=
  collapse_go false l

/-- Model of str.strip at source line 266: leading and trailing whitespace
bytes are removed. -/
def strip_bytes (l : List Nat) : List Nat :=
  ((l.dropWhile isPySpace).reverse.dropWhile isPySpace).reverse

/-- Zone text cleanup of get_zone_details (source lines 264 to 266): NUL
bytes become spaces, runs of non-word characters collapse to single
spaces, surrounding whitespace is stripped. -/
def clean_zonetext (l : List Nat) : List Nat :=
  strip_bytes (collapse_nonword (l.map (fun b => if b = 0 then 32 else b)))

/-- Python-visible result of get_zone_details: ok is the returned triple,
retNone propagates the None returned by sendcommand, crashNameError is the
short-payload branch, which logs a length diagnostic and then evaluates
self.hexstr(payload) where the name payload is undefined in that scope,
raising NameError before the None return is reached. -/
inductive ZoneDetailsResult where
  | ok (zonetype areabitmap : Nat) (zonetext : List Nat)
  | retNone
  | crashNameError
deriving Repr, DecidableEq

/-- Post-processing of the sendcommand result by get_zone_details (source
lines 256 to 270): None propagates; a payload shorter than 34 bytes takes
the length-error branch (which crashes on the undefined name payload);
otherwise byte 0 is the zone type, byte 1 the area bitmap, and the
remaining bytes the cleaned label text. -/
def get_zone_details_post (details : Option (List Nat)) : ZoneDetailsResult :=
  match details with
  | none => ZoneDetailsResult.retNone
  | some d =>
    if d.length < 34 then ZoneDetailsResult.crashNameError
    else ZoneDetailsResult.ok d.headI d.tail.headI (clean_zonetext (d.drop 2))

/-- Zone record stored into the self.zone dictionary by get_all_zones
(source lines 279 to 284). -/
structure ZoneData where
  ztype : Nat
  areas : Nat
  text : List Nat
deriving Repr, DecidableEq

/-- Lookup in the zone registry dictionary, modelled as an association
list keyed by zone number. -/
def zone_lookup (reg : List (Nat × ZoneData)) (z : Nat) : Option ZoneData :=
  (reg.find? (fun p => p.1 == z)).map Prod.snd

/-- Scan loop of get_all_zones (source lines 276 to 284) over zone numbers
zone .. n: query is the per-zone call of get_zone_details, returning some
zone data when it produced a triple and none when it failed (returned None
or raised), in which case the tuple unpacking at source line 278 raises
and aborts the loop with the registry as populated so far.  The boolean
records whether the scan completed without raising. -/
def get_all_zones_loop (query : Nat → Option ZoneData) :
    Nat → Nat → List (Nat × ZoneData) → List (Nat × ZoneData) × Bool
  | zone, n, reg =>
    if zone > n then (reg, true)
    else match query zone with
      | none => (reg, false)
      | some zd => get_all_zones_loop query (zone + 1) n (reg ++ [(zone, zd)])
termination_by zone n _ => n + 1 - zone
decreasing_by
  simp at *
  omega

/-- Outcome of the ZoneEvent branch of debug_print_message: logged carries
the zone number, the base state index (bitmap masked with 3) and the label
text read from the registry; keyError is the unguarded dictionary lookup
failing for an unknown zone; crashUnbound is the unknown-payload-length
branch, which logs and then reads the unassigned local zone_number. -/
inductive ZoneDispatch where
  | logged (zone stateIdx : Nat) (text : List Nat)
  | keyError (zone : Nat)
  | crashUnbound
deriving Repr, DecidableEq

/-- Shared tail of the ZoneEvent branch (source lines 325 to 341): compute
the state description from the bitmap, then read the label with an
unguarded lookup of self.zone at the zone number. -/
def debug_zone_event_core (reg : List (Nat × ZoneData))
    (zone_number zone_bitmap : Nat) : ZoneDispatch :=
  match zone_lookup reg zone_number with
  | none => ZoneDispatch.keyError zone_number
  | some zd => ZoneDispatch.logged zone_number (zone_bitmap &&& 3) zd.text

/-- ZoneEvent branch of debug_print_message (source lines 316 to 341): a
two-byte payload is zone number then bitmap, a three-byte payload is a
little-endian sixteen-bit zone number then bitmap, and any other length
falls through with zone_number and zone_bitmap unassigned. -/
def debug_zone_event (reg : List (Nat × ZoneData)) (payload : List Nat) :
    ZoneDispatch :=
  match payload with
  | [p0, p1] => debug_zone_event_core reg p0 p1
  | [p0, p1, p2] => debug_zone_event_core reg (p0 + p1 * 256) p2
  | _ => ZoneDispatch.crashUnbound

/-- State-name list indexed by the AreaEvent state byte (source line 345). -/
def area_state_strs : List String :=
  ["disarmed", "in exit", "in entry", "armed", "part armed", "in alarm"]

/-- State-name list indexed by the UserEvent method byte (source line 373). -/
def user_state_strs : List String :=
  ["code", "tag", "code+tag"]

/-- Outcome of the AreaEvent and UserEvent branches of debug_print_message:
logged carries the number byte and the selected state name;
crashIndexError is the unguarded list indexing going out of range;
crashShort is payload subscripting failing on a payload shorter than two
bytes. -/
inductive EventDispatch where
  | logged (n : Nat) (s : String)
  | crashIndexError
  | crashShort
deriving Repr, DecidableEq

/-- AreaEvent branch of debug_print_message (source lines 342 to 346):
payload byte 0 is the area number and byte 1 indexes the six-entry state
list with no bounds check. -/
def debug_area_event (payload : List Nat) : EventDispatch :=
  match payload with
  | p0 :: p1 :: _ =>
    match area_state_strs.get? p1 with
    | none => EventDispatch.crashIndexError
    | some s => EventDispatch.logged p0 s
  | _ => EventDispatch.crashShort

/-- UserEvent branch of debug_print_message (source lines 370 to 375):
payload byte 0 is the user number and byte 1 indexes the three-entry
method list with no bounds check. -/
def debug_user_event (payload : List Nat) : EventDispatch :=
  match payload with
  | p0 :: p1 :: _ =>
    match user_state_strs.get? p1 with
    | none => EventDispatch.crashIndexError
    | some s => EventDispatch.logged p0 s
  | _ => EventDispatch.crashShort

end Texecom

namespace Texecom

/-- Claim C4: for every Command frame whose payload length is between 0 and
250, decoding the bytes produced by encoding it (marker t, kind, length =
payload length + 5, sequence, payload, CRC-8 with polynomial 0x185,
non-reflected, initial value 0xFF over all preceding bytes) yields the
original frame unchanged. -/
theorem C4_encode_decode_roundtrip (seq : Nat) (body : List Nat)
    (h : body.length ≤ 250) :
    decode_frame (encode_frame seq body) =
      some ⟨HEADER_START, HEADER_TYPE_COMMAND, body.length + 5, seq, body⟩ := by
  have e : decode_frame (encode_frame seq body) =
      decode_rest HEADER_START HEADER_TYPE_COMMAND (body.length + 5) seq
        (body ++ [crc8_func (HEADER_START :: HEADER_TYPE_COMMAND ::
          (body.length + 5) :: seq :: body)]) := rfl
  rw [e]
  simp only [decode_rest, LENGTH_HEADER]
  have h1 : body.length + 5 - 4 =
      (body ++ [crc8_func (HEADER_START :: HEADER_TYPE_COMMAND ::
        (body.length + 5) :: seq :: body)]).length := by
    simp
  rw [h1, List.take_length, List.getLast?_concat]
  simp

/-- Witness for C4 at sequence 5 with the three-byte payload [1, 2, 3]. -/
theorem C4_encode_decode_roundtrip_witness :
    ([1, 2, 3] : List Nat).length ≤ 250 ∧
      decode_frame (encode_frame 5 [1, 2, 3]) =
        some ⟨HEADER_START, HEADER_TYPE_COMMAND, 8, 5, [1, 2, 3]⟩ :=
  ⟨by decide, C4_encode_decode_roundtrip 5 [1, 2, 3] (by decide)⟩

/-- Claim C1, the code evaluated at the failing input: when every read
attempt times out, sendcommand performs four byte-identical transmissions
of the encoded frame (the initial send plus one verbatim retransmission
per caught timeout, the last of which is never awaited) and exits the
retry loop with the local variable response never assigned, so the
subsequent subscript of response raises UnboundLocalError instead of
surfacing TimeoutError, and no pending-exchange state is cleared. -/
theorem C1_all_timeouts_crash (frame : List Nat) :
    sendcommand_transmissions frame (fun _ => ReadOutcome.timeout) =
      (none, [frame, frame, frame, frame]) :=
  rfl

/-- Counterexample to claim C2: a response whose opcode byte is Login (1)
while the requested opcode is GetDateTime (23) is an opcode mismatch, and
with an empty remaining payload it is not a Login-with-NAK-payload case,
so the claim requires the OpcodeMismatchError outcome; the code instead
subscripts the empty payload and raises IndexError. -/
theorem C2_counterexample :
    CMD_LOGIN ≠ CMD_GETDATETIME ∧
    sendcommand_classify CMD_GETDATETIME (some [CMD_LOGIN]) = SendResult.crash ∧
    sendcommand_classify CMD_GETDATETIME (some [CMD_LOGIN]) ≠
      SendResult.opcodeMismatch := by
  refine ⟨by decide, by decide, by decide⟩

/-- Claim C3, the code evaluated at the failing input: for a 20-byte
response payload get_zone_details takes the short-length branch, which
logs a length diagnostic and then evaluates self.hexstr(payload) where the
name payload is undefined in that scope, raising NameError before the
None return is reached; no partial zone record is produced and no index
beyond the buffer is read. -/
theorem C3_short_payload_crashes :
    get_zone_details_post (some (List.replicate 20 0)) =
      ZoneDetailsResult.crashNameError := by
  decide

/-- Counterexample to claim C5: for the one-byte response payload 0x07,
which is neither ACK nor NAK, login takes the branch that logs the
unexpected-ack diagnostic and returns the boolean False; it does not yield
a SessionError or any non-boolean result. -/
theorem C5_counterexample :
    login_post (some [7]) = LoginResult.retFalseUnexpected ∧
    LoginResult.retFalseUnexpected ≠ LoginResult.crash := by
  refine ⟨by decide, by decide⟩

/-- Claim C5 as amended: login returns True exactly for the one-byte ACK
payload and False for the one-byte NAK payload; every other one-byte
payload logs the unexpected-ack diagnostic and also returns False rather
than an error; a missing, empty or multi-byte payload makes the ord call
raise TypeError. -/
theorem C5_amended_login :
    login_post (some [CMD_RESPONSE_ACK]) = LoginResult.retTrue ∧
    login_post (some [CMD_RESPONSE_NAK]) = LoginResult.retFalseNak ∧
    (∀ b : Nat, b ≠ CMD_RESPONSE_ACK → b ≠ CMD_RESPONSE_NAK →
      login_post (some [b]) = LoginResult.retFalseUnexpected) ∧
    login_post none = LoginResult.crash ∧
    login_post (some []) = LoginResult.crash ∧
    (∀ (a b : Nat) (rest : List Nat),
      login_post (some (a :: b :: rest)) = LoginResult.crash) := by
  refine ⟨rfl, rfl, ?_, rfl, rfl, fun a b rest => rfl⟩
  intro b hACK hNAK
  simp [login_post, CMD_RESPONSE_ACK, CMD_RESPONSE_NAK] at *
  simp [hACK, hNAK]

/-- Witness for C5 as amended, instantiating the universal branch at the
one-byte payload 0x07. -/
theorem C5_amended_login_witness :
    (7 : Nat) ≠ CMD_RESPONSE_ACK ∧ (7 : Nat) ≠ CMD_RESPONSE_NAK ∧
      login_post (some [7]) = LoginResult.retFalseUnexpected :=
  ⟨by decide, by decide,
    C5_amended_login.2.2.1 7 (by decide) (by decide)⟩

/-- Claim C10: the AreaEvent branch indexes the fixed six-entry state-name
list with the raw state byte and the UserEvent branch indexes the fixed
three-entry method-name list with the raw method byte, in both cases with
no bounds check: a state byte of 6 or more, or a method byte of 3 or
more, raises IndexError instead of producing an Unknown or partial
result, while smaller bytes select a state name. -/
theorem C10_state_list_indexing_unchecked :
    (∀ (p0 p1 : Nat) (rest : List Nat), 6 ≤ p1 →
      debug_area_event (p0 :: p1 :: rest) = EventDispatch.crashIndexError) ∧
    (∀ (p0 p1 : Nat) (rest : List Nat), p1 < 6 →
      ∃ s, debug_area_event (p0 :: p1 :: rest) = EventDispatch.logged p0 s) ∧
    (∀ (p0 p1 : Nat) (rest : List Nat), 3 ≤ p1 →
      debug_user_event (p0 :: p1 :: rest) = EventDispatch.crashIndexError) ∧
    (∀ (p0 p1 : Nat) (rest : List Nat), p1 < 3 →
      ∃ s, debug_user_event (p0 :: p1 :: rest) = EventDispatch.logged p0 s) := by
  refine ⟨?_, ?_, ?_, ?_⟩
  · intro p0 p1 rest h
    have hnone : area_state_strs[p1]? = none := by
      rw [List.getElem?_eq_none_iff]
      simpa [area_state_strs] using h
    simp [debug_area_event, hnone]
  · intro p0 p1 rest h
    interval_cases p1 <;> exact ⟨_, rfl⟩
  · intro p0 p1 rest h
    have hnone : user_state_strs[p1]? = none := by
      rw [List.getElem?_eq_none_iff]
      simpa [user_state_strs] using h
    simp [debug_user_event, hnone]
  · intro p0 p1 rest h
    interval_cases p1 <;> exact ⟨_, rfl⟩

/-- Witness for C10 at state byte 6 (area), state byte 3 (area, in range),
method byte 3 (user) and method byte 2 (user, in range). -/
theorem C10_state_list_indexing_unchecked_witness :
    (6 : Nat) ≤ 6 ∧
      debug_area_event [1, 6] = EventDispatch.crashIndexError ∧
      (3 : Nat) ≤ 3 ∧
      debug_user_event [2, 3] = EventDispatch.crashIndexError :=
  ⟨by decide, C10_state_list_indexing_unchecked.1 1 6 [] (by decide),
    by decide, C10_state_list_indexing_unchecked.2.2.1 2 3 [] (by decide)⟩

/-- Unfolding equation of recvresponse_step for a four-byte header. -/
theorem recvresponse_step_four (ls : Nat) (lrs : Int) (s t l q : Nat)
    (pr : List Nat) :
    recvresponse_step ls lrs [s, t, l, q] pr =
      if [s, t, l, q] = [43, 43, 43] then (Control.ret none, lrs)
      else recvresponse_body ls lrs s t l q pr := rfl

/-- Claim C2 as amended: recvresponse hands a Response payload back only
when the frame kind is Response and its sequence byte equals the stored
last_sequence, and sendcommand returns the remaining payload exactly when
the leading opcode byte equals the requested opcode; a mismatched Login
opcode whose payload starts with NAK takes the session-expired branch, a
mismatched opcode that is not Login (with any payload) or that is Login
with a nonempty payload not starting with NAK takes the wrong-command-id
branch, and a mismatched Login opcode with an empty payload raises
IndexError instead of reaching the wrong-command-id branch; both mismatch
branches return None to the caller. -/
theorem C2_response_correlation_amended :
    (∀ (ls : Nat) (lrs : Int) (s t l q : Nat) (pr p : List Nat) (lrs2 : Int),
      recvresponse_step ls lrs [s, t, l, q] pr = (Control.ret (some p), lrs2) →
      t = HEADER_TYPE_RESPONSE ∧ q = ls ∧ p = pr.dropLast) ∧
    (∀ (cmd : Nat) (resp payload : List Nat),
      sendcommand_classify cmd (some resp) = SendResult.ok payload ↔
        resp = cmd :: payload) ∧
    (∀ (cmd : Nat) (rest : List Nat), CMD_LOGIN ≠ cmd →
      sendcommand_classify cmd (some (CMD_LOGIN :: CMD_RESPONSE_NAK :: rest)) =
        SendResult.sessionExpired) ∧
    (∀ (cmd c0 p0 : Nat) (rest : List Nat), c0 ≠ cmd →
      (c0 = CMD_LOGIN → p0 ≠ CMD_RESPONSE_NAK) →
      sendcommand_classify cmd (some (c0 :: p0 :: rest)) =
        SendResult.opcodeMismatch) ∧
    (∀ cmd c0 : Nat, c0 ≠ cmd → c0 ≠ CMD_LOGIN →
      sendcommand_classify cmd (some [c0]) = SendResult.opcodeMismatch) ∧
    (∀ cmd : Nat, CMD_LOGIN ≠ cmd →
      sendcommand_classify cmd (some [CMD_LOGIN]) = SendResult.crash) := by
  refine ⟨?_, ?_, ?_, ?_, ?_, ?_⟩
  · intro ls lrs s t l q pr p lrs2 h
    rw [recvresponse_step_four, if_neg (by simp)] at h
    unfold recvresponse_body at h
    repeat' split at h
    all_goals try (rcases ite_eq_iff.1 h with ⟨hc, h2⟩ | ⟨hc, h2⟩)
    all_goals try (cases hcm : check_message_seq lrs q <;> rw [hcm] at h2)
    all_goals simp_all
  · intro cmd resp payload
    match resp with
    | [] => simp [sendcommand_classify]
    | c :: pl =>
      by_cases hc : c = cmd
      · subst hc
        simp [sendcommand_classify]
      · rcases pl with _ | ⟨p0, rest⟩
        · by_cases hl : c = CMD_LOGIN
          · subst hl; simp [sendcommand_classify, hc]
          · simp [sendcommand_classify, hc, hl]
        · by_cases hl : c = CMD_LOGIN
          · subst hl
            by_cases hp : p0 = CMD_RESPONSE_NAK <;>
              simp [sendcommand_classify, hc, hp]
          · simp [sendcommand_classify, hc, hl]
  · intro cmd rest h
    simp [sendcommand_classify, h, CMD_RESPONSE_NAK]
  · intro cmd c0 p0 rest hc himp
    by_cases hl : c0 = CMD_LOGIN
    · have hp := himp hl
      subst hl
      simp [sendcommand_classify, hc, hp]
    · simp [sendcommand_classify, hc, hl]
  · intro cmd c0 hc hl
    simp [sendcommand_classify, hc, hl]
  · intro cmd h
    simp [sendcommand_classify, h]

/-- Witness for C2 as amended: a Response frame carrying sequence 9 with
last_sequence 9 is returned; a GetDateTime request answered with a Login
NAK takes the session-expired branch; answered with opcode 3 it takes the
wrong-command-id branch; answered with a bare Login opcode it crashes. -/
theorem C2_response_correlation_amended_witness :
    (HEADER_TYPE_RESPONSE = HEADER_TYPE_RESPONSE ∧ (9 : Nat) = 9 ∧
      ([] : List Nat) = [crc8_func [116, 82, 5, 9]].dropLast) ∧
    sendcommand_classify CMD_GETDATETIME (some [CMD_LOGIN, CMD_RESPONSE_NAK]) =
      SendResult.sessionExpired ∧
    sendcommand_classify CMD_GETDATETIME (some [3, 9]) =
      SendResult.opcodeMismatch ∧
    sendcommand_classify CMD_GETDATETIME (some [CMD_LOGIN]) = SendResult.crash :=
  ⟨C2_response_correlation_amended.1 9 (-1) 116 82 5 9
      [crc8_func [116, 82, 5, 9]] [] (-1) (by rfl),
    C2_response_correlation_amended.2.2.1 CMD_GETDATETIME [] (by decide),
    C2_response_correlation_amended.2.2.2.1 CMD_GETDATETIME 3 9 []
      (by decide) (by decide),
    C2_response_correlation_amended.2.2.2.2.2 CMD_GETDATETIME (by decide)⟩

/-- Claim C6: with no message seen yet (stored value -1) any sequence byte
is accepted and recorded; afterwards a message is accepted, recorded and
delivered to the handler exactly when its sequence equals the successor of
the stored value modulo 256, and any other value makes recvresponse drop
the frame (returning None) without delivery. -/
theorem C6_message_sequence_policy :
    (∀ s : Nat, check_message_seq (-1) s = some (s : Int)) ∧
    (∀ (last : Int) (s : Nat), 0 ≤ last → last ≤ 255 →
      check_message_seq last s =
        if (s : Int) = (last + 1) % 256 then some (s : Int) else none) ∧
    (∀ (ls : Nat) (lrs : Int) (s t l q : Nat) (pr p : List Nat) (lrs2 : Int),
      recvresponse_step ls lrs [s, t, l, q] pr = (Control.deliver p, lrs2) →
      t = HEADER_TYPE_MESSAGE ∧ check_message_seq lrs q = some lrs2 ∧
        p = pr.dropLast) ∧
    (∀ (ls : Nat) (lrs : Int) (l q : Nat) (payload : List Nat) (lrs2 : Int),
      check_message_seq lrs q = some lrs2 →
      recvresponse_step ls lrs [HEADER_START, HEADER_TYPE_MESSAGE, l, q]
          (payload ++
            [crc8_func ([HEADER_START, HEADER_TYPE_MESSAGE, l, q] ++ payload)]) =
        (Control.deliver payload, lrs2)) ∧
    (∀ (ls : Nat) (lrs : Int) (l q : Nat) (payload : List Nat),
      check_message_seq lrs q = none →
      recvresponse_step ls lrs [HEADER_START, HEADER_TYPE_MESSAGE, l, q]
          (payload ++
            [crc8_func ([HEADER_START, HEADER_TYPE_MESSAGE, l, q] ++ payload)]) =
        (Control.ret none, lrs)) := by
  refine ⟨?_, ?_, ?_, ?_, ?_⟩
  · intro s
    simp [check_message_seq]
  · intro last s h0 h1
    unfold check_message_seq
    have hne : last ≠ -1 := by omega
    rw [if_pos hne]
    by_cases h2 : last + 1 = 256
    · rw [if_pos h2]
      have hm : (last + 1) % 256 = 0 := by omega
      rw [hm]
      by_cases hs : (s : Int) = 0 <;> simp [hs]
    · rw [if_neg h2]
      have hm : (last + 1) % 256 = last + 1 := by omega
      rw [hm]
      by_cases hs : (s : Int) = last + 1 <;> simp [hs]
  · intro ls lrs s t l q pr p lrs2 h
    rw [recvresponse_step_four, if_neg (by simp)] at h
    unfold recvresponse_body at h
    repeat' split at h
    all_goals try (rcases ite_eq_iff.1 h with ⟨hc, h2⟩ | ⟨hc, h2⟩)
    all_goals try (cases hcm : check_message_seq lrs q <;> rw [hcm] at h2)
    all_goals simp_all
  · intro ls lrs l q payload lrs2 hacc
    rw [recvresponse_step_four, if_neg (by simp)]
    unfold recvresponse_body
    rw [List.getLast?_concat]
    simp [List.dropLast_concat, hacc, HEADER_START, HEADER_TYPE_RESPONSE,
      HEADER_TYPE_MESSAGE, HEADER_TYPE_COMMAND]
  · intro ls lrs l q payload hgap
    rw [recvresponse_step_four, if_neg (by simp)]
    unfold recvresponse_body
    rw [List.getLast?_concat]
    simp [List.dropLast_concat, hgap, HEADER_START, HEADER_TYPE_RESPONSE,
      HEADER_TYPE_MESSAGE, HEADER_TYPE_COMMAND]

/-- Witness for C6: after a message with sequence 5, sequence 6 is
accepted and delivered and sequence 8 is dropped; the acceptance test at
stored value 5 with sequence byte 6 evaluates to acceptance. -/
theorem C6_message_sequence_policy_witness :
    ((0 : Int) ≤ 5 ∧ (5 : Int) ≤ 255 ∧
      check_message_seq 5 6 = if (6 : Int) = (5 + 1) % 256 then some 6 else none) ∧
    (check_message_seq 5 6 = some 6 ∧
      recvresponse_step 0 5 [HEADER_START, HEADER_TYPE_MESSAGE, 5, 6]
          ([] ++ [crc8_func ([HEADER_START, HEADER_TYPE_MESSAGE, 5, 6] ++ [])]) =
        (Control.deliver [], 6)) ∧
    (check_message_seq 5 8 = none ∧
      recvresponse_step 0 5 [HEADER_START, HEADER_TYPE_MESSAGE, 5, 8]
          ([] ++ [crc8_func ([HEADER_START, HEADER_TYPE_MESSAGE, 5, 8] ++ [])]) =
        (Control.ret none, 5)) :=
  ⟨⟨by decide, by decide, C6_message_sequence_policy.2.1 5 6 (by decide) (by decide)⟩,
    ⟨by decide, C6_message_sequence_policy.2.2.2.1 0 5 5 6 [] 6 (by decide)⟩,
    ⟨by decide, C6_message_sequence_policy.2.2.2.2 0 5 5 8 [] (by decide)⟩⟩

/-- Claim C7: scanning five zones when the query for zone 3 fails leaves
exactly zones 1 and 2 in the registry, zones 3, 4 and 5 absent, and the
scan reports failure (the tuple unpacking raises, aborting the loop, so
the uncaught exception surfaces to the caller). -/
theorem C7_partial_scan (query : Nat → Option ZoneData) (r1 r2 : ZoneData)
    (h1 : query 1 = some r1) (h2 : query 2 = some r2) (h3 : query 3 = none) :
    get_all_zones_loop query 1 5 [] = ([(1, r1), (2, r2)], false) ∧
    zone_lookup [(1, r1), (2, r2)] 1 = some r1 ∧
    zone_lookup [(1, r1), (2, r2)] 2 = some r2 ∧
    zone_lookup [(1, r1), (2, r2)] 3 = none ∧
    zone_lookup [(1, r1), (2, r2)] 4 = none ∧
    zone_lookup [(1, r1), (2, r2)] 5 = none := by
  refine ⟨?_, rfl, rfl, rfl, rfl, rfl⟩
  rw [get_all_zones_loop]
  simp only [h1]
  rw [get_all_zones_loop]
  simp only [h2]
  rw [get_all_zones_loop]
  simp only [h3]
  norm_num

/-- Witness for C7 with a concrete query failing exactly at zone 3. -/
theorem C7_partial_scan_witness :
    (fun z => if z = 3 then none else some (ZoneData.mk 1 1 [])) 1 =
        some (ZoneData.mk 1 1 []) ∧
    (fun z => if z = 3 then none else some (ZoneData.mk 1 1 [])) 2 =
        some (ZoneData.mk 1 1 []) ∧
    (fun z => if z = 3 then (none : Option ZoneData) else some (ZoneData.mk 1 1 [])) 3 = none ∧
    get_all_zones_loop (fun z => if z = 3 then none else some (ZoneData.mk 1 1 []))
        1 5 [] =
      ([(1, ZoneData.mk 1 1 []), (2, ZoneData.mk 1 1 [])], false) :=
  ⟨by decide, by decide, by decide,
    (C7_partial_scan (fun z => if z = 3 then none else some (ZoneData.mk 1 1 []))
        (ZoneData.mk 1 1 []) (ZoneData.mk 1 1 [])
        (by decide) (by decide) (by decide)).1⟩

/-- Claim C8: every validation failure in recvresponse returns the single
sentinel None with the stored message sequence unchanged: the forced
disconnect marker +++ read in place of a header, a start marker other
than t, a checksum mismatch, a Response frame whose sequence differs from
the pending one, a Message frame failing the message-sequence check, and
an unexpected Command-kind frame all produce the same return value, so
the caller cannot tell which failure occurred. -/
theorem C8_uniform_none_on_failure :
    (∀ (ls : Nat) (lrs : Int) (pr : List Nat),
      recvresponse_step ls lrs [43, 43, 43] pr = (Control.ret none, lrs)) ∧
    (∀ (ls : Nat) (lrs : Int) (s t l q : Nat) (pr : List Nat),
      s ≠ HEADER_START → pr ≠ [] →
      recvresponse_step ls lrs [s, t, l, q] pr = (Control.ret none, lrs)) ∧
    (∀ (ls : Nat) (lrs : Int) (t l q : Nat) (payload : List Nat) (c : Nat),
      c ≠ crc8_func ([HEADER_START, t, l, q] ++ payload) →
      recvresponse_step ls lrs [HEADER_START, t, l, q] (payload ++ [c]) =
        (Control.ret none, lrs)) ∧
    (∀ (ls : Nat) (lrs : Int) (l q : Nat) (payload : List Nat), q ≠ ls →
      recvresponse_step ls lrs [HEADER_START, HEADER_TYPE_RESPONSE, l, q]
          (payload ++
            [crc8_func ([HEADER_START, HEADER_TYPE_RESPONSE, l, q] ++ payload)]) =
        (Control.ret none, lrs)) ∧
    (∀ (ls : Nat) (lrs : Int) (l q : Nat) (payload : List Nat),
      check_message_seq lrs q = none →
      recvresponse_step ls lrs [HEADER_START, HEADER_TYPE_MESSAGE, l, q]
          (payload ++
            [crc8_func ([HEADER_START, HEADER_TYPE_MESSAGE, l, q] ++ payload)]) =
        (Control.ret none, lrs)) ∧
    (∀ (ls : Nat) (lrs : Int) (l q : Nat) (payload : List Nat),
      recvresponse_step ls lrs [HEADER_START, HEADER_TYPE_COMMAND, l, q]
          (payload ++
            [crc8_func ([HEADER_START, HEADER_TYPE_COMMAND, l, q] ++ payload)]) =
        (Control.ret none, lrs)) := by
  refine ⟨?_, ?_, ?_, ?_, ?_, ?_⟩
  · intro ls lrs pr
    rfl
  · intro ls lrs s t l q pr hs hpr
    rw [recvresponse_step_four, if_neg (by simp)]
    obtain ⟨c, hc⟩ := Option.isSome_iff_exists.mp (List.getLast?_isSome.mpr hpr)
    unfold recvresponse_body
    rw [hc]
    simp [hs]
  · intro ls lrs t l q payload c hcrc
    rw [recvresponse_step_four, if_neg (by simp)]
    unfold recvresponse_body
    rw [List.getLast?_concat]
    simp [List.dropLast_concat, hcrc]
    intro hceq
    exact absurd hceq (by simpa using hcrc)
  · intro ls lrs l q payload hq
    rw [recvresponse_step_four, if_neg (by simp)]
    unfold recvresponse_body
    rw [List.getLast?_concat]
    simp [List.dropLast_concat, hq, HEADER_START, HEADER_TYPE_RESPONSE,
      HEADER_TYPE_MESSAGE, HEADER_TYPE_COMMAND]
  · intro ls lrs l q payload hgap
    rw [recvresponse_step_four, if_neg (by simp)]
    unfold recvresponse_body
    rw [List.getLast?_concat]
    simp [List.dropLast_concat, hgap, HEADER_START, HEADER_TYPE_RESPONSE,
      HEADER_TYPE_MESSAGE, HEADER_TYPE_COMMAND]
  · intro ls lrs l q payload
    rw [recvresponse_step_four, if_neg (by simp)]
    unfold recvresponse_body
    rw [List.getLast?_concat]
    simp [List.dropLast_concat, HEADER_START, HEADER_TYPE_RESPONSE,
      HEADER_TYPE_MESSAGE, HEADER_TYPE_COMMAND]

/-- Witness for C8: one concrete frame of each failure class evaluates to
the same None return. -/
theorem C8_uniform_none_on_failure_witness :
    recvresponse_step 0 (-1) [43, 43, 43] [] = (Control.ret none, -1) ∧
    ((120 : Nat) ≠ HEADER_START ∧
      recvresponse_step 0 (-1) [120, 82, 5, 0] [99] = (Control.ret none, -1)) ∧
    ((0 : Nat) ≠ crc8_func ([HEADER_START, 82, 5, 0] ++ []) ∧
      recvresponse_step 0 (-1) [HEADER_START, 82, 5, 0] ([] ++ [0]) =
        (Control.ret none, -1)) ∧
    ((7 : Nat) ≠ 0 ∧
      recvresponse_step 0 (-1) [HEADER_START, HEADER_TYPE_RESPONSE, 5, 7]
          ([] ++ [crc8_func ([HEADER_START, HEADER_TYPE_RESPONSE, 5, 7] ++ [])]) =
        (Control.ret none, -1)) ∧
    (check_message_seq 5 9 = none ∧
      recvresponse_step 0 5 [HEADER_START, HEADER_TYPE_MESSAGE, 5, 9]
          ([] ++ [crc8_func ([HEADER_START, HEADER_TYPE_MESSAGE, 5, 9] ++ [])]) =
        (Control.ret none, 5)) ∧
    recvresponse_step 0 (-1) [HEADER_START, HEADER_TYPE_COMMAND, 5, 0]
        ([] ++ [crc8_func ([HEADER_START, HEADER_TYPE_COMMAND, 5, 0] ++ [])]) =
      (Control.ret none, -1) :=
  ⟨C8_uniform_none_on_failure.1 0 (-1) [],
    ⟨by decide, C8_uniform_none_on_failure.2.1 0 (-1) 120 82 5 0 [99]
      (by decide) (by decide)⟩,
    ⟨by decide, C8_uniform_none_on_failure.2.2.1 0 (-1) 82 5 0 [] 0 (by decide)⟩,
    ⟨by decide, C8_uniform_none_on_failure.2.2.2.1 0 (-1) 5 7 [] (by decide)⟩,
    ⟨by decide, C8_uniform_none_on_failure.2.2.2.2.1 0 5 5 9 [] (by decide)⟩,
    C8_uniform_none_on_failure.2.2.2.2.2 0 (-1) 5 0 []⟩

/-- Claim C9: a ZoneEvent message whose decoded zone number is not a key
of the zone registry makes the unguarded dictionary lookup raise KeyError,
so the event is never logged; a logged delivery exists only for zone
numbers present in the registry, whose stored label it reads. -/
theorem C9_zone_event_requires_registry :
    (∀ (reg : List (Nat × ZoneData)) (z0 z1 : Nat), zone_lookup reg z0 = none →
      debug_zone_event reg [z0, z1] = ZoneDispatch.keyError z0) ∧
    (∀ (reg : List (Nat × ZoneData)) (z0 z1 z2 : Nat),
      zone_lookup reg (z0 + z1 * 256) = none →
      debug_zone_event reg [z0, z1, z2] =
        ZoneDispatch.keyError (z0 + z1 * 256)) ∧
    (∀ (reg : List (Nat × ZoneData)) (payload : List Nat) (z i : Nat)
        (t : List Nat),
      debug_zone_event reg payload = ZoneDispatch.logged z i t →
      ∃ zd, zone_lookup reg z = some zd ∧ zd.text = t) := by
  refine ⟨?_, ?_, ?_⟩
  · intro reg z0 z1 h
    simp [debug_zone_event, debug_zone_event_core, h]
  · intro reg z0 z1 z2 h
    simp [debug_zone_event, debug_zone_event_core, h]
  · intro reg payload z i t h
    rcases payload with _ | ⟨p0, rest⟩
    · simp [debug_zone_event] at h
    rcases rest with _ | ⟨p1, rest2⟩
    · simp [debug_zone_event] at h
    rcases rest2 with _ | ⟨p2, rest3⟩
    · simp only [debug_zone_event, debug_zone_event_core] at h
      cases hl : zone_lookup reg p0 with
      | none => rw [hl] at h; simp at h
      | some zd =>
        rw [hl] at h
        simp at h
        obtain ⟨hz, _, ht⟩ := h
        exact ⟨zd, by rw [← hz]; exact hl, ht⟩
    rcases rest3 with _ | ⟨p3, rest4⟩
    · simp only [debug_zone_event, debug_zone_event_core] at h
      cases hl : zone_lookup reg (p0 + p1 * 256) with
      | none => rw [hl] at h; simp at h
      | some zd =>
        rw [hl] at h
        simp at h
        obtain ⟨hz, _, ht⟩ := h
        exact ⟨zd, by rw [← hz]; exact hl, ht⟩
    · simp [debug_zone_event] at h

/-- Witness for C9: with a registry holding only zone 1, a ZoneEvent for
zone 2 hits the KeyError path, and a logged delivery for zone 1 reads the
stored label. -/
theorem C9_zone_event_requires_registry_witness :
    (zone_lookup [(1, ZoneData.mk 8 1 [65])] 2 = none ∧
      debug_zone_event [(1, ZoneData.mk 8 1 [65])] [2, 1] =
        ZoneDispatch.keyError 2) ∧
    (debug_zone_event [(1, ZoneData.mk 8 1 [65])] [1, 1] =
        ZoneDispatch.logged 1 1 [65] ∧
      ∃ zd, zone_lookup [(1, ZoneData.mk 8 1 [65])] 1 = some zd ∧
        zd.text = [65]) :=
  ⟨⟨by decide, C9_zone_event_requires_registry.1 [(1, ZoneData.mk 8 1 [65])] 2 1
      (by decide)⟩,
    ⟨by decide, C9_zone_event_requires_registry.2.2 [(1, ZoneData.mk 8 1 [65])]
      [1, 1] 1 1 [65] (by decide)⟩⟩

end Texecom
